import Mathlib

/-!
Shallow embedding of the Zillow wholesale automation core
(src/config.py and src/automation/zillow_scraper.py).

Modelling conventions:
- Python `float` values are modelled as exact rationals (ℚ).  Every concrete
  value appearing in the claims was checked to coincide with the IEEE-double
  computation of the source at those inputs.
- Python `int(x)` on a float truncates toward zero: `pyInt`.
- Python truthiness of `Optional` numbers (`if self.min_price:`,
  `custom_fee or 10.0`): `None` and `0` are falsy; `pyTruthyOptInt`, `pyOrQ`.
- A Python dict key that may be absent is an `Option` field; reading an
  absent key raises `KeyError`, division by zero raises `ZeroDivisionError`;
  fallible operations return `Except PyError`.
-/

deriving instance DecidableEq for Except

namespace ZillowWholesale

/-- Python exceptions relevant to this code.  `zeroDivisionError` and
`keyError` come from the Python runtime; `invalidConfiguration` is the error
named by the spec's error taxonomy (§7) — no code in the repository defines
or raises it, it exists here only so that statements can mention it. -/
inductive PyError where
  | zeroDivisionError
  | keyError
  | invalidConfiguration
deriving DecidableEq, Repr

/-- Python truthiness of an `Optional[int]`: `None` and `0` are falsy. -/
def pyTruthyOptInt : Option ℤ → Bool
  | none => false
  | some v => v != 0

/-- Python `x or d` for `x : Optional[float]`: `None` and `0.0` fall through
to the default. -/
def pyOrQ (x : Option ℚ) (d : ℚ) : ℚ :=
  match x with
  | none => d
  | some v => if v = 0 then d else v

/-- Python `int(q)` on a float: truncation toward zero. -/
def pyInt (q : ℚ) : ℤ :=
  if 0 ≤ q then ⌊q⌋ else ⌈q⌉

/-- Strip leading and trailing whitespace, as Python `int(str)` does. -/
def pyStripWs (l : List Char) : List Char :=
  ((l.dropWhile Char.isWhitespace).reverse.dropWhile Char.isWhitespace).reverse

/-- Value of a nonempty all-digit character list. -/
def digitsVal (l : List Char) : ℤ :=
  l.foldl (fun a c => a * 10 + ((c.toNat : ℤ) - 48)) 0

/-- Parse a nonempty run of ASCII decimal digits, else `none`. -/
def parseDigits (l : List Char) : Option ℤ :=
  if l ≠ [] ∧ l.all Char.isDigit then some (digitsVal l) else none

/-- Python `int(s)` on a string: optional surrounding whitespace, optional
sign, decimal digits.  (Underscore separators and non-ASCII digits, which
CPython also accepts, are not modelled; no claim depends on them.) -/
def pyParseInt (s : String) : Option ℤ :=
  match pyStripWs s.toList with
  | '+' :: rest => parseDigits rest
  | '-' :: rest => (parseDigits rest).map Neg.neg
  | l => parseDigits l

/-! ## Configuration data model (src/config.py) -/

/-- Dataclass `PropertyConfig`. -/
structure PropertyConfig where
  single_family : Bool := true
  small_multifamily : Bool := false
  any_age : Bool := true
  built_after_1980 : Bool := false
  built_after_1990 : Bool := false
  built_after_2000 : Bool := false
deriving DecidableEq, Repr

/-- Dataclass `RentalStrategyConfig`. -/
structure RentalStrategyConfig where
  market_rate : Bool := true
  section_8 : Bool := false
deriving DecidableEq, Repr

/-- Dataclass `ManagementConfig`. -/
structure ManagementConfig where
  property_managed : Bool := true
  self_managed : Bool := false
  use_default_fee : Bool := true
  custom_fee : Option ℚ := none
deriving DecidableEq, Repr

/-- Property `ManagementConfig.management_fee_rate` (config.py:34-42).
Note the Python `self.custom_fee or 10.0`: a custom fee of exactly `0`
falls through to the `10.0` default. -/
def ManagementConfig.management_fee_rate (m : ManagementConfig) : ℚ :=
  if m.self_managed then 0
  else if m.use_default_fee then 10 / 100
  else pyOrQ m.custom_fee 10 / 100

/-- Dataclass `LocationConfig`. -/
structure LocationConfig where
  input_method : String := "manual"
  use_county : Bool := true
  use_zip : Bool := false
  state : String := "NC"
  county : String := "Wake"
  zip_code : String := ""
  custom_radius : Option ℤ := none
deriving DecidableEq, Repr

/-- Property `LocationConfig.search_radius` (config.py:55-63); `if
self.custom_radius:` is Python truthiness, so a custom radius of 0 falls
through. -/
def LocationConfig.search_radius (l : LocationConfig) : ℤ :=
  if pyTruthyOptInt l.custom_radius then l.custom_radius.getD 0
  else if l.use_county then 15
  else 5

/-- Dataclass `InvestmentConfig`. -/
structure InvestmentConfig where
  cash_purchase : Bool := true
  financed_purchase : Bool := false
  use_default_down : Bool := true
  custom_down : Option ℚ := none
deriving DecidableEq, Repr

/-- Property `InvestmentConfig.down_payment_rate` (config.py:73-81). -/
def InvestmentConfig.down_payment_rate (i : InvestmentConfig) : ℚ :=
  if i.cash_purchase then 1
  else if i.use_default_down then 20 / 100
  else pyOrQ i.custom_down 20 / 100

/-- Dataclass `SearchConfig` (config.py:83-100). -/
structure SearchConfig where
  target_roi : ℚ := 10
  max_results : ℤ := 10
  min_days_on_market : ℤ := 30
  property : PropertyConfig := {}
  rental_strategy : RentalStrategyConfig := {}
  management : ManagementConfig := {}
  location : LocationConfig := {}
  investment : InvestmentConfig := {}
  min_price : Option ℤ := none
  max_price : Option ℤ := none
deriving DecidableEq, Repr

/-- The flat parameter dict built by `to_zillow_params`; an `Option` field
models presence of the corresponding dict key. -/
structure ZillowParams where
  location_type : String
  county : String
  state : String
  zip_code : String
  radius : ℤ
  max_results : ℤ
  min_days_on_market : ℤ
  pt_single_family : Bool
  pt_multifamily : Bool
  min_price : Option ℤ
  max_price : Option ℤ
deriving DecidableEq, Repr

/-- Method `SearchConfig.to_zillow_params` (config.py:102-124).  The price keys are
added under `if self.min_price:` / `if self.max_price:` — Python truthiness,
so `None` and `0` both omit the key. -/
def SearchConfig.to_zillow_params (c : SearchConfig) : ZillowParams :=
  { location_type := if c.location.use_county then "county" else "zip"
    county := c.location.county
    state := c.location.state
    zip_code := c.location.zip_code
    radius := c.location.search_radius
    max_results := c.max_results
    min_days_on_market := c.min_days_on_market
    pt_single_family := c.property.single_family
    pt_multifamily := c.property.small_multifamily
    min_price := if pyTruthyOptInt c.min_price then c.min_price else none
    max_price := if pyTruthyOptInt c.max_price then c.max_price else none }

/-- Lines 145-147 of config.py: store the buffered bounds,
`int(max_price * 0.85)` and `int(max_price * 0.4)`. -/
def setPriceRange (c : SearchConfig) (max_price : ℚ) : SearchConfig :=
  { c with max_price := some (pyInt (max_price * (85 / 100)))
           min_price := some (pyInt (max_price * (4 / 10))) }

/-- Method `SearchConfig.calculate_price_range` (config.py:126-147).  Python float
division by zero raises `ZeroDivisionError`; the guards model exactly the
two divisions the source performs. -/
def SearchConfig.calculate_price_range (c : SearchConfig) (avg_rent : ℚ) :
    Except PyError SearchConfig :=
  let net_rent := avg_rent * (1 - c.management.management_fee_rate)
  let monthly_noi := net_rent * (1 / 2)
  let annual_noi := monthly_noi * 12
  let target_roi_decimal := c.target_roi / 100
  if target_roi_decimal = 0 then .error .zeroDivisionError
  else if c.investment.cash_purchase then
    .ok (setPriceRange c (annual_noi / target_roi_decimal))
  else
    let down_payment_rate := c.investment.down_payment_rate
    if down_payment_rate = 0 then .error .zeroDivisionError
    else .ok (setPriceRange c (annual_noi / target_roi_decimal / down_payment_rate))

/-! ## Listing records and scoring (src/automation/zillow_scraper.py) -/

/-- One harvested property record (the dict built by
`extract_property_data`, zillow_scraper.py:121-130).  `days_on_market` is
`Option` because the claims quantify over records where the key is absent;
the three analysis fields are `none` until `analyze_deals` writes them. -/
structure ListingRecord where
  address : String := ""
  price : String := ""
  bedrooms : String := "N/A"
  bathrooms : String := "N/A"
  square_feet : String := "N/A"
  days_on_market : Option String := some "Unknown"
  url : String := ""
  scraped_date : String := ""
  opportunity_score : Option ℤ := none
  recommended_action : Option String := none
  analysis_notes : Option String := none
deriving DecidableEq, Repr

/-- The dict returned by `calculate_opportunity_score`. -/
structure ScoreResult where
  opportunity_score : ℤ
  recommended_action : String
  analysis_notes : String
deriving DecidableEq, Repr

/-- Days-on-market tier scoring (zillow_scraper.py:154-156). -/
def domTierScore (dom : ℤ) : ℤ :=
  if dom > 120 then 40
  else if dom > 90 then 30
  else if dom > 60 then 20
  else 0

/-- The `score` accumulated by the try/except block
(zillow_scraper.py:149-158): a missing key (`KeyError`) or a failed
`int(...)` conversion is caught by the bare `except` and scores 10. -/
def domScoreVal : Option String → ℤ
  | none => 10
  | some s =>
    match pyParseInt s with
    | none => 10
    | some dom => domTierScore dom

/-- Action thresholds (zillow_scraper.py:163-168). -/
def actionFor (score : ℤ) : String :=
  if score ≥ 70 then "CALL TODAY - Strong opportunity"
  else if score ≥ 50 then "CALL THIS WEEK - Good potential"
  else "RESEARCH MORE - Gather intel"

/-- Method `calculate_opportunity_score` (zillow_scraper.py:147-174).  The
f-string in the returned dict reads `property_data['days_on_market']`
again, OUTSIDE the try block: a record without that key raises `KeyError`
there even though the scoring itself survived via the bare `except`. -/
def calculate_opportunity_score (p : ListingRecord) : Except PyError ScoreResult :=
  let score := domScoreVal p.days_on_market
  let action := actionFor score
  match p.days_on_market with
  | none => .error .keyError
  | some s =>
    .ok { opportunity_score := score
          recommended_action := action
          analysis_notes := "DOM: " ++ s ++ " days" }

/-- Step `prop.update(analysis)` (zillow_scraper.py:142): write the three
analysis keys into the record. -/
def updateRecord (p : ListingRecord) (a : ScoreResult) : ListingRecord :=
  { p with opportunity_score := some a.opportunity_score
           recommended_action := some a.recommended_action
           analysis_notes := some a.analysis_notes }

/-- Method `analyze_deals` (zillow_scraper.py:136-145): score each record in
order; an exception from `calculate_opportunity_score` propagates and
aborts the loop. -/
def analyze_deals : List ListingRecord → Except PyError (List ListingRecord)
  | [] => .ok []
  | p :: rest =>
    match calculate_opportunity_score p with
    | .error e => .error e
    | .ok a =>
      match analyze_deals rest with
      | .error e => .error e
      | .ok rs => .ok (updateRecord p a :: rs)

/-- Total enrichment of one record: what `analyze_deals` does to a record
whose scoring succeeds (identity on the unreachable error case). -/
def enrichRecord (p : ListingRecord) : ListingRecord :=
  match calculate_opportunity_score p with
  | .ok a => updateRecord p a
  | .error _ => p

/-! ## Concrete fixtures used by the claims -/

/-- Listing with 150 days on market. -/
def rec150 : ListingRecord := { days_on_market := some "150" }

/-- Listing with 95 days on market. -/
def rec95 : ListingRecord := { days_on_market := some "95" }

/-- Listing with 45 days on market. -/
def rec45 : ListingRecord := { days_on_market := some "45" }

/-- Listing with the "Unknown" sentinel for days on market. -/
def recUnknown : ListingRecord := { days_on_market := some "Unknown" }

/-- Listing whose dict lacks the days_on_market key entirely. -/
def recNoDom : ListingRecord := { days_on_market := none }

/-- Default configuration after `calculate_price_range(1400)` (cash case). -/
def cashResult : SearchConfig := { min_price := some 30240, max_price := some 64260 }

/-- Default configuration after `calculate_price_range(0)`. -/
def zeroResult : SearchConfig := { min_price := some 0, max_price := some 0 }

/-- Financed-purchase configuration with the default 20% down payment. -/
def financedCfg : SearchConfig :=
  { investment := { cash_purchase := false, financed_purchase := true } }

/-- Configuration `financedCfg` after `calculate_price_range(1400)`. -/
def financedResult : SearchConfig :=
  { financedCfg with min_price := some 151200, max_price := some 321300 }

/-- Configuration with `target_roi = 0`. -/
def roiZeroCfg : SearchConfig := { target_roi := 0 }

/-- Managed configuration with a 200% custom management fee: every field is
constructible in the source dataclasses, yet the fee rate exceeds 1. -/
def c7bad : SearchConfig :=
  { management := { use_default_fee := false, custom_fee := some 200 } }

/-- Managed configuration whose custom fee is explicitly `0`. -/
def mgmtZeroFee : ManagementConfig := { use_default_fee := false, custom_fee := some 0 }

/-! ## Helper lemmas -/

lemma pyInt_eq_floor {q : ℚ} (h : 0 ≤ q) : pyInt q = ⌊q⌋ := if_pos h

lemma pyInt_nonneg {q : ℚ} (h : 0 ≤ q) : 0 ≤ pyInt q := by
  rw [pyInt_eq_floor h]
  exact Int.le_floor.mpr (by exact_mod_cast h)

lemma pyInt_mono {a b : ℚ} (h0 : 0 ≤ a) (hab : a ≤ b) : pyInt a ≤ pyInt b := by
  rw [pyInt_eq_floor h0, pyInt_eq_floor (h0.trans hab)]
  exact Int.floor_le_floor hab

lemma cashEval : ({} : SearchConfig).calculate_price_range 1400 = .ok cashResult := by
  norm_num [SearchConfig.calculate_price_range, ManagementConfig.management_fee_rate,
    setPriceRange, pyInt, cashResult]

lemma financedEval : financedCfg.calculate_price_range 1400 = .ok financedResult := by
  norm_num [SearchConfig.calculate_price_range, ManagementConfig.management_fee_rate,
    InvestmentConfig.down_payment_rate, setPriceRange, pyInt, pyOrQ,
    financedCfg, financedResult]

lemma rentZeroEval : ({} : SearchConfig).calculate_price_range 0 = .ok zeroResult := by
  norm_num [SearchConfig.calculate_price_range, ManagementConfig.management_fee_rate,
    setPriceRange, pyInt, zeroResult]

lemma domScoreVal_cases (d : Option String) :
    domScoreVal d = 0 ∨ domScoreVal d = 10 ∨ domScoreVal d = 20 ∨
      domScoreVal d = 30 ∨ domScoreVal d = 40 := by
  rcases d with _ | s
  · simp [domScoreVal]
  · cases hp : pyParseInt s with
    | none => simp [domScoreVal, hp]
    | some dom =>
      simp only [domScoreVal, hp, domTierScore]
      split_ifs <;> simp

lemma domScoreVal_lt_50 (d : Option String) : domScoreVal d < 50 := by
  rcases domScoreVal_cases d with h | h | h | h | h <;> omega

lemma actionFor_research {s : ℤ} (h : s < 50) :
    actionFor s = "RESEARCH MORE - Gather intel" := by
  unfold actionFor
  rw [if_neg (by omega), if_neg (by omega)]

lemma calc_score_some (p : ListingRecord) (s : String) (h : p.days_on_market = some s) :
    calculate_opportunity_score p =
      .ok { opportunity_score := domScoreVal (some s)
            recommended_action := actionFor (domScoreVal (some s))
            analysis_notes := "DOM: " ++ s ++ " days" } := by
  simp [calculate_opportunity_score, h]

lemma calc_score_none (p : ListingRecord) (h : p.days_on_market = none) :
    calculate_opportunity_score p = .error .keyError := by
  simp [calculate_opportunity_score, h]

lemma analyze_deals_eq_map (l : List ListingRecord)
    (h : ∀ p ∈ l, p.days_on_market.isSome = true) :
    analyze_deals l = .ok (l.map enrichRecord) := by
  induction l with
  | nil => rfl
  | cons p rest ih =>
    obtain ⟨s, hs⟩ := Option.isSome_iff_exists.mp (h p (List.mem_cons_self p rest))
    have hcalc := calc_score_some p s hs
    have hrest := ih (fun q hq => h q (List.mem_cons_of_mem p hq))
    simp [analyze_deals, hcalc, hrest, enrichRecord]

/-! ## Claim theorems -/

/-- C1, counterexample: scoring the 150-days record yields action
"RESEARCH MORE - Gather intel", not the "CALL TODAY - Strong opportunity"
the claim asserts, and the 95-days record likewise does not get
"CALL THIS WEEK - Good potential". -/
theorem score_150_not_call_today :
    (calculate_opportunity_score rec150).toOption.map ScoreResult.recommended_action =
      some "RESEARCH MORE - Gather intel" ∧
    "RESEARCH MORE - Gather intel" ≠ "CALL TODAY - Strong opportunity" ∧
    (calculate_opportunity_score rec95).toOption.map ScoreResult.recommended_action =
      some "RESEARCH MORE - Gather intel" ∧
    "RESEARCH MORE - Gather intel" ≠ "CALL THIS WEEK - Good potential" := by
  decide

/-- C1, amended: days_on_market "150" scores 40, "95" scores 30, "45"
scores 0, "Unknown" scores 10, and in every one of these cases the
recommended action is "RESEARCH MORE - Gather intel" (the days-on-market
factor alone never reaches the 50-point action threshold). -/
theorem dom_scoring_values :
    calculate_opportunity_score rec150 =
      .ok { opportunity_score := 40
            recommended_action := "RESEARCH MORE - Gather intel"
            analysis_notes := "DOM: 150 days" } ∧
    calculate_opportunity_score rec95 =
      .ok { opportunity_score := 30
            recommended_action := "RESEARCH MORE - Gather intel"
            analysis_notes := "DOM: 95 days" } ∧
    calculate_opportunity_score rec45 =
      .ok { opportunity_score := 0
            recommended_action := "RESEARCH MORE - Gather intel"
            analysis_notes := "DOM: 45 days" } ∧
    calculate_opportunity_score recUnknown =
      .ok { opportunity_score := 10
            recommended_action := "RESEARCH MORE - Gather intel"
            analysis_notes := "DOM: Unknown days" } := by
  decide

/-- C2: whenever `calculate_opportunity_score` returns a result, its score
is one of 0, 10, 20, 30, 40 and its action is exactly
"RESEARCH MORE - Gather intel"; the two CALL strings are never produced. -/
theorem score_range_and_action (p : ListingRecord) (r : ScoreResult)
    (h : calculate_opportunity_score p = .ok r) :
    (r.opportunity_score = 0 ∨ r.opportunity_score = 10 ∨ r.opportunity_score = 20 ∨
      r.opportunity_score = 30 ∨ r.opportunity_score = 40) ∧
    r.recommended_action = "RESEARCH MORE - Gather intel" ∧
    r.recommended_action ≠ "CALL TODAY - Strong opportunity" ∧
    r.recommended_action ≠ "CALL THIS WEEK - Good potential" := by
  rcases hd : p.days_on_market with _ | s
  · rw [calc_score_none p hd] at h
    exact absurd h (by simp)
  · rw [calc_score_some p s hd] at h
    obtain rfl := (Except.ok.inj h).symm
    have hact := actionFor_research (domScoreVal_lt_50 (some s))
    exact ⟨domScoreVal_cases (some s), hact,
      by show actionFor (domScoreVal (some s)) ≠ _; rw [hact]; decide,
      by show actionFor (domScoreVal (some s)) ≠ _; rw [hact]; decide⟩

/-- C2, witness: the invariant instantiated at the concrete 150-days
record. -/
theorem score_range_and_action_witness :
    ((40 : ℤ) = 0 ∨ (40 : ℤ) = 10 ∨ (40 : ℤ) = 20 ∨ (40 : ℤ) = 30 ∨ (40 : ℤ) = 40) ∧
    "RESEARCH MORE - Gather intel" = "RESEARCH MORE - Gather intel" ∧
    "RESEARCH MORE - Gather intel" ≠ "CALL TODAY - Strong opportunity" ∧
    "RESEARCH MORE - Gather intel" ≠ "CALL THIS WEEK - Good potential" :=
  score_range_and_action rec150
    { opportunity_score := 40
      recommended_action := "RESEARCH MORE - Gather intel"
      analysis_notes := "DOM: 150 days" }
    (by decide)

/-- C3, counterexample: with `target_roi = 0` the calculation fails with
`ZeroDivisionError`, which is not the spec's `InvalidConfiguration` — the
repository defines no such error. -/
theorem roi_zero_not_invalid_configuration :
    roiZeroCfg.calculate_price_range 1400 = .error .zeroDivisionError ∧
    PyError.zeroDivisionError ≠ PyError.invalidConfiguration := by
  constructor
  · norm_num [SearchConfig.calculate_price_range, roiZeroCfg]
  · decide

/-- C3, amended: calling `calculate_price_range` on any configuration whose
`target_roi` is 0, with any rent, fails with Python's `ZeroDivisionError`
surfaced to the caller — not a silent inf/NaN result. -/
theorem roi_zero_zero_division (c : SearchConfig) (rent : ℚ)
    (h : c.target_roi = 0) :
    c.calculate_price_range rent = .error .zeroDivisionError := by
  simp [SearchConfig.calculate_price_range, h]

/-- C3, witness: the amended statement at `target_roi = 0`, rent 1400. -/
theorem roi_zero_zero_division_witness :
    roiZeroCfg.calculate_price_range 1400 = .error .zeroDivisionError :=
  roi_zero_zero_division roiZeroCfg 1400 rfl

/-- C5: the reference computation of §4.2.  On the default configuration
(cash purchase, target_roi 10, management fee 0.10) a 1400 average rent
resolves max_price 64260 and min_price 30240; on the financed configuration
with the default 20% down payment it resolves 321300 and 151200.  The last
two conjuncts evaluate the source's implied-max-price expression to 75600
and 378000 respectively. -/
theorem price_range_reference_values :
    ({} : SearchConfig).target_roi = 10 ∧
    ({} : SearchConfig).management.management_fee_rate = 10 / 100 ∧
    ({} : SearchConfig).investment.cash_purchase = true ∧
    ({} : SearchConfig).calculate_price_range 1400 = .ok cashResult ∧
    cashResult.max_price = some 64260 ∧ cashResult.min_price = some 30240 ∧
    financedCfg.investment.down_payment_rate = 20 / 100 ∧
    financedCfg.calculate_price_range 1400 = .ok financedResult ∧
    financedResult.max_price = some 321300 ∧ financedResult.min_price = some 151200 ∧
    1400 * (1 - ({} : SearchConfig).management.management_fee_rate) * (1 / 2) * 12 /
      (({} : SearchConfig).target_roi / 100) = 75600 ∧
    1400 * (1 - financedCfg.management.management_fee_rate) * (1 / 2) * 12 /
      (financedCfg.target_roi / 100) / financedCfg.investment.down_payment_rate = 378000 := by
  refine ⟨rfl, by norm_num [ManagementConfig.management_fee_rate], rfl, cashEval,
    rfl, rfl, by norm_num [InvestmentConfig.down_payment_rate, financedCfg, pyOrQ],
    financedEval, rfl, rfl, ?_, ?_⟩
  · norm_num [ManagementConfig.management_fee_rate]
  · norm_num [ManagementConfig.management_fee_rate, InvestmentConfig.down_payment_rate,
      financedCfg, pyOrQ]

/-- C9, counterexample: a managed configuration whose custom fee is
explicitly 0 yields a 10% fee rate, not the 0% the claim asserts for an
explicitly-zero custom fee — Python's `custom_fee or 10.0` treats 0 as
absent. -/
theorem custom_fee_zero_defaults :
    mgmtZeroFee.self_managed = false ∧
    mgmtZeroFee.use_default_fee = false ∧
    mgmtZeroFee.custom_fee = some 0 ∧
    mgmtZeroFee.management_fee_rate = 10 / 100 ∧
    (10 / 100 : ℚ) ≠ 0 / 100 := by
  refine ⟨rfl, rfl, rfl, ?_, by norm_num⟩
  norm_num [ManagementConfig.management_fee_rate, mgmtZeroFee, pyOrQ]

/-- Modelled from the spec as amended for C9: the fee-rate derivation in
the spec's own words — self-managed gives 0, the default fee gives 0.10, a
nonzero custom fee gives custom_fee/100, and 10.0 is substituted when the
custom fee is absent or zero. -/
def feeRateSpec (m : ManagementConfig) : ℚ :=
  if m.self_managed then 0
  else if m.use_default_fee then 10 / 100
  else
    match m.custom_fee with
    | some v => if v ≠ 0 then v / 100 else 10 / 100
    | none => 10 / 100

/-- C9, amended: `management_fee_rate` is 0 when self-managed, 0.10 when
managed with the default fee, custom_fee/100 when managed with a nonzero
custom fee, and 10/100 when the custom fee is absent or zero: it agrees
with `feeRateSpec` everywhere. -/
theorem management_fee_rate_spec (m : ManagementConfig) :
    m.management_fee_rate = feeRateSpec m := by
  unfold ManagementConfig.management_fee_rate feeRateSpec pyOrQ
  rcases m.custom_fee with _ | v
  · rfl
  · by_cases hv : v = 0 <;> simp [hv]

lemma setPriceRange_zero (c : SearchConfig) {m : ℚ} (hm : m = 0) :
    (setPriceRange c m).min_price = some 0 ∧ (setPriceRange c m).max_price = some 0 ∧
    (setPriceRange c m).to_zillow_params.min_price = none ∧
    (setPriceRange c m).to_zillow_params.max_price = none := by
  subst hm
  refine ⟨?_, ?_, ?_, ?_⟩ <;>
    norm_num [setPriceRange, SearchConfig.to_zillow_params, pyTruthyOptInt, pyInt]

lemma truthy_filter (o : Option ℤ) (v : ℤ) :
    (if pyTruthyOptInt o then o else none) = some v ↔ o = some v ∧ v ≠ 0 := by
  rcases o with _ | w
  · simp [pyTruthyOptInt]
  · by_cases hw : w = 0 <;> simp [pyTruthyOptInt, hw] <;> aesop

/-- C4, counterexample: `calculate_price_range(0)` on the default
configuration resolves both bounds to 0, yet `to_zillow_params` omits both
price keys, because `if self.min_price:` treats 0 as falsy — contradicting
the claim that the parameter set then includes min_price = 0 and
max_price = 0. -/
theorem price_keys_dropped_at_zero :
    ({} : SearchConfig).calculate_price_range 0 = .ok zeroResult ∧
    zeroResult.min_price = some 0 ∧ zeroResult.max_price = some 0 ∧
    zeroResult.to_zillow_params.min_price = none ∧
    zeroResult.to_zillow_params.max_price = none := by
  refine ⟨rentZeroEval, rfl, rfl, ?_, ?_⟩ <;> rfl

/-- C4, amended: `to_zillow_params` carries the min_price (resp. max_price)
key with value v iff the corresponding field is set to v and v is nonzero
(Python truthiness); consequently after `calculate_price_range(0)`, which
resolves both bounds to 0, both keys are absent. -/
theorem price_keys_iff_truthy :
    (∀ (c : SearchConfig) (v : ℤ),
      (c.to_zillow_params.min_price = some v ↔ c.min_price = some v ∧ v ≠ 0) ∧
      (c.to_zillow_params.max_price = some v ↔ c.max_price = some v ∧ v ≠ 0)) ∧
    (∀ c c' : SearchConfig, c.calculate_price_range 0 = .ok c' →
      c'.min_price = some 0 ∧ c'.max_price = some 0 ∧
      c'.to_zillow_params.min_price = none ∧ c'.to_zillow_params.max_price = none) := by
  constructor
  · intro c v
    exact ⟨truthy_filter c.min_price v, truthy_filter c.max_price v⟩
  · intro c c' h
    simp only [SearchConfig.calculate_price_range] at h
    split_ifs at h with h1 h2 h3
    · obtain rfl := Except.ok.inj h
      exact setPriceRange_zero c (by simp)
    · obtain rfl := Except.ok.inj h
      exact setPriceRange_zero c (by simp)

/-- C4, witness: the amended statement exercised on the rent-0 run of the
default configuration and on a configuration holding a nonzero bound. -/
theorem price_keys_iff_truthy_witness :
    (zeroResult.min_price = some 0 ∧ zeroResult.max_price = some 0 ∧
      zeroResult.to_zillow_params.min_price = none ∧
      zeroResult.to_zillow_params.max_price = none) ∧
    cashResult.to_zillow_params.min_price = some 30240 :=
  ⟨price_keys_iff_truthy.2 {} zeroResult rentZeroEval,
   (price_keys_iff_truthy.1 cashResult 30240).1.mpr ⟨rfl, by decide⟩⟩

/-- C6, counterexample: on a record whose dict lacks the days_on_market key
entirely, `calculate_opportunity_score` does not return normally — the
f-string building analysis_notes re-reads the key outside the try block and
raises `KeyError` — contradicting the claim that no exception escapes for a
missing field. -/
theorem missing_dom_key_error :
    calculate_opportunity_score recNoDom = .error .keyError := by
  decide

/-- C6, amended: for every record whose days_on_market field is present —
however malformed — `calculate_opportunity_score` returns normally, and an
unparsable value yields a score of exactly 10; a record missing the field
altogether raises `KeyError` from the analysis-notes formatting. -/
theorem score_total_when_dom_present :
    (∀ (p : ListingRecord) (s : String), p.days_on_market = some s →
      (calculate_opportunity_score p).toOption.isSome = true ∧
      (pyParseInt s = none →
        (calculate_opportunity_score p).toOption.map ScoreResult.opportunity_score =
          some 10)) ∧
    (∀ p : ListingRecord, p.days_on_market = none →
      calculate_opportunity_score p = .error .keyError) := by
  constructor
  · intro p s hs
    rw [calc_score_some p s hs]
    refine ⟨rfl, ?_⟩
    intro hparse
    simp only [domScoreVal, hparse]
    rfl
  · intro p hp
    exact calc_score_none p hp

/-- C6, witness: the amended statement at the "Unknown" record and at the
record missing the key. -/
theorem score_total_when_dom_present_witness :
    (calculate_opportunity_score recUnknown).toOption.isSome = true ∧
    (calculate_opportunity_score recUnknown).toOption.map ScoreResult.opportunity_score =
      some 10 ∧
    calculate_opportunity_score recNoDom = .error .keyError :=
  ⟨(score_total_when_dom_present.1 recUnknown "Unknown" rfl).1,
   (score_total_when_dom_present.1 recUnknown "Unknown" rfl).2 (by decide),
   score_total_when_dom_present.2 recNoDom rfl⟩

/-- C10: whenever `calculate_price_range` returns normally it changes only
min_price and max_price — target_roi, max_results, min_days_on_market and
every sub-configuration are identical before and after. -/
theorem calculate_price_range_frame (c : SearchConfig) (rent : ℚ) (c' : SearchConfig)
    (h : c.calculate_price_range rent = .ok c') :
    c'.target_roi = c.target_roi ∧ c'.max_results = c.max_results ∧
    c'.min_days_on_market = c.min_days_on_market ∧ c'.property = c.property ∧
    c'.rental_strategy = c.rental_strategy ∧ c'.management = c.management ∧
    c'.location = c.location ∧ c'.investment = c.investment := by
  simp only [SearchConfig.calculate_price_range] at h
  split_ifs at h with h1 h2 h3
  · obtain rfl := Except.ok.inj h
    exact ⟨rfl, rfl, rfl, rfl, rfl, rfl, rfl, rfl⟩
  · obtain rfl := Except.ok.inj h
    exact ⟨rfl, rfl, rfl, rfl, rfl, rfl, rfl, rfl⟩

/-- C10, witness: the frame property at the default configuration and rent
1400. -/
theorem calculate_price_range_frame_witness :
    cashResult.target_roi = ({} : SearchConfig).target_roi ∧
    cashResult.max_results = ({} : SearchConfig).max_results ∧
    cashResult.min_days_on_market = ({} : SearchConfig).min_days_on_market ∧
    cashResult.property = ({} : SearchConfig).property ∧
    cashResult.rental_strategy = ({} : SearchConfig).rental_strategy ∧
    cashResult.management = ({} : SearchConfig).management ∧
    cashResult.location = ({} : SearchConfig).location ∧
    cashResult.investment = ({} : SearchConfig).investment :=
  calculate_price_range_frame {} 1400 cashResult cashEval

lemma setPriceRange_bounds (c : SearchConfig) {m : ℚ} (hm : 0 ≤ m) :
    (setPriceRange c m).min_price.isSome = true ∧
    (setPriceRange c m).max_price.isSome = true ∧
    0 ≤ (setPriceRange c m).min_price.getD 0 ∧
    (setPriceRange c m).min_price.getD 0 ≤ (setPriceRange c m).max_price.getD 0 := by
  refine ⟨rfl, rfl, ?_, ?_⟩
  · show (0 : ℤ) ≤ pyInt (m * (4 / 10))
    exact pyInt_nonneg (by positivity)
  · show pyInt (m * (4 / 10)) ≤ pyInt (m * (85 / 100))
    exact pyInt_mono (by positivity)
      (mul_le_mul_of_nonneg_left (by norm_num) hm)

lemma q_nonneg_1400 : (0 : ℚ) ≤ 1400 := by norm_num

lemma roi_pos_default : 0 < ({} : SearchConfig).target_roi := by norm_num

lemma fee_le_one_default : ({} : SearchConfig).management.management_fee_rate ≤ 1 := by
  norm_num [ManagementConfig.management_fee_rate]

lemma down_pos_default : 0 < ({} : SearchConfig).investment.down_payment_rate := by
  norm_num [InvestmentConfig.down_payment_rate]

/-- C7, counterexample: the constructible configuration with a 200% custom
management fee has target_roi 10 > 0, yet `calculate_price_range(100)` with
rent 100 ≥ 0 resolves max_price = -5100 < min_price = -2400 < 0, violating
`max_price ≥ min_price ≥ 0`. -/
theorem price_invariant_fails_high_fee :
    (0 : ℚ) ≤ 100 ∧ 0 < c7bad.target_roi ∧
    c7bad.calculate_price_range 100 =
      .ok { c7bad with min_price := some (-2400), max_price := some (-5100) } ∧
    (-5100 : ℤ) < -2400 ∧ (-2400 : ℤ) < 0 := by
  refine ⟨by norm_num, by norm_num [c7bad], ?_, by decide, by decide⟩
  norm_num [SearchConfig.calculate_price_range, ManagementConfig.management_fee_rate,
    setPriceRange, pyInt, pyOrQ, c7bad, Int.ceil_neg]

/-- C7, amended: on the freshly constructed configuration both bounds are
unset; and for every rent ≥ 0 and every configuration with target_roi > 0
whose management fee rate is at most 1 and whose down-payment rate is
positive, a normal return of `calculate_price_range` leaves both bounds set
(as integers, by construction) with max_price ≥ min_price ≥ 0. -/
theorem price_range_bounds_invariant :
    (({} : SearchConfig).min_price = none ∧ ({} : SearchConfig).max_price = none) ∧
    ∀ (c : SearchConfig) (rent : ℚ), 0 ≤ rent → 0 < c.target_roi →
      c.management.management_fee_rate ≤ 1 →
      0 < c.investment.down_payment_rate →
      ∀ c', c.calculate_price_range rent = .ok c' →
        c'.min_price.isSome = true ∧ c'.max_price.isSome = true ∧
        0 ≤ c'.min_price.getD 0 ∧ c'.min_price.getD 0 ≤ c'.max_price.getD 0 := by
  refine ⟨⟨rfl, rfl⟩, ?_⟩
  intro c rent hrent hroi hfee hdown c' h
  have hroi' : (0 : ℚ) < c.target_roi / 100 := by positivity
  have hann : (0 : ℚ) ≤ rent * (1 - c.management.management_fee_rate) * (1 / 2) * 12 := by
    have h1 : (0 : ℚ) ≤ 1 - c.management.management_fee_rate := by linarith
    have h2 := mul_nonneg hrent h1
    linarith
  simp only [SearchConfig.calculate_price_range] at h
  split_ifs at h with h1 h2 h3
  · obtain rfl := Except.ok.inj h
    exact setPriceRange_bounds c (div_nonneg hann hroi'.le)
  · obtain rfl := Except.ok.inj h
    exact setPriceRange_bounds c (div_nonneg (div_nonneg hann hroi'.le) hdown.le)

/-- C7, witness: the amended invariant at the default configuration and
rent 1400, whose resolved bounds are 30240 ≤ 64260. -/
theorem price_range_bounds_invariant_witness :
    cashResult.min_price.isSome = true ∧ cashResult.max_price.isSome = true ∧
    0 ≤ cashResult.min_price.getD 0 ∧
    cashResult.min_price.getD 0 ≤ cashResult.max_price.getD 0 :=
  price_range_bounds_invariant.2 {} 1400 q_nonneg_1400 roi_pos_default
    fee_le_one_default down_pos_default cashResult cashEval

/-- C8: batch scoring is order-independent.  For a batch given as positions
0..n-1 of `f` and any permutation σ, the analyzed output of the permuted
batch has at position i exactly the enrichment of record f(σ i) — the
identical permutation of the original output (position i of which is the
enrichment of f i) — and each record's enrichment depends on that record
alone, not on its position or on the rest of the batch.  The hypothesis
restricts to records carrying a days_on_market field, which every record
built by the extraction step does ("Unknown" at minimum); without it a
`KeyError` aborts both batches identically. -/
theorem analyze_deals_order_independent (n : ℕ) (f : Fin n → ListingRecord)
    (σ : Equiv.Perm (Fin n)) (h : ∀ i, (f i).days_on_market.isSome = true) :
    analyze_deals (List.ofFn fun i => f (σ i)) =
      .ok (List.ofFn fun i => enrichRecord (f (σ i))) ∧
    analyze_deals (List.ofFn f) = .ok (List.ofFn fun i => enrichRecord (f i)) := by
  constructor
  · rw [analyze_deals_eq_map]
    · rw [List.map_ofFn]
      rfl
    · intro p hp
      obtain ⟨i, rfl⟩ := Set.mem_range.mp ((List.mem_ofFn _ p).mp hp)
      exact h (σ i)
  · rw [analyze_deals_eq_map]
    · rw [List.map_ofFn]
      rfl
    · intro p hp
      obtain ⟨i, rfl⟩ := Set.mem_range.mp ((List.mem_ofFn _ p).mp hp)
      exact h i

/-- C8, witness: the order-independence statement for the two-record batch
[rec150, rec95] under the transposition of its two positions. -/
theorem analyze_deals_order_independent_witness :
    analyze_deals (List.ofFn fun i =>
        (![rec150, rec95] : Fin 2 → ListingRecord) (Equiv.swap 0 1 i)) =
      .ok (List.ofFn fun i =>
        enrichRecord ((![rec150, rec95] : Fin 2 → ListingRecord) (Equiv.swap 0 1 i))) ∧
    analyze_deals (List.ofFn (![rec150, rec95] : Fin 2 → ListingRecord)) =
      .ok (List.ofFn fun i =>
        enrichRecord ((![rec150, rec95] : Fin 2 → ListingRecord) i)) :=
  analyze_deals_order_independent 2 ![rec150, rec95] (Equiv.swap 0 1) (by decide)

end ZillowWholesale
